import Mathlib

/-!
Verification of the ssh-rs SSH2 client transport.

Shallow embedding of the repository's source (src/client.rs, src/channel.rs,
src/session.rs) in Lean 4.  Machine integers are modelled as Nat with explicit
wrap-around where the source checks for it; fallible operations return Except;
stateful code is explicit state passing; every network write performed by an
operation is collected in a list, each entry recording the protection state
(global encryption flag and key material) in force at the moment of the write.

Modules of the repository that are not part of the provided source (the packet
codec, the constants module, the key-agreement internals, the error type) are
modelled from the specification; every such definition carries a doc comment
starting with "Modelled from the spec:".
-/

namespace SshRs

/-! ### Wire message codes

Modelled from the spec: section 6 lists the implemented wire message types;
the constants module holding their numeric values is not under src/, so the
standard SSH2 assigned numbers are used.  The theorems below depend only on
the codes being pairwise distinct. -/

/-- Modelled from the spec: standard code for SSH_MSG_SERVICE_REQUEST. -/
def SSH_MSG_SERVICE_REQUEST : Nat := 5

/-- Modelled from the spec: standard code for SSH_MSG_SERVICE_ACCEPT. -/
def SSH_MSG_SERVICE_ACCEPT : Nat := 6

/-- Modelled from the spec: standard code for SSH_MSG_KEXINIT. -/
def SSH_MSG_KEXINIT : Nat := 20

/-- Modelled from the spec: standard code for SSH_MSG_NEWKEYS. -/
def SSH_MSG_NEWKEYS : Nat := 21

/-- Modelled from the spec: standard code for SSH_MSG_KEX_ECDH_REPLY. -/
def SSH_MSG_KEX_ECDH_REPLY : Nat := 31

/-- Modelled from the spec: standard code for SSH_MSG_USERAUTH_REQUEST. -/
def SSH_MSG_USERAUTH_REQUEST : Nat := 50

/-- Modelled from the spec: standard code for SSH_MSG_USERAUTH_FAILURE. -/
def SSH_MSG_USERAUTH_FAILURE : Nat := 51

/-- Modelled from the spec: standard code for SSH_MSG_USERAUTH_SUCCESS. -/
def SSH_MSG_USERAUTH_SUCCESS : Nat := 52

/-- Modelled from the spec: standard code for SSH_MSG_GLOBAL_REQUEST. -/
def SSH_MSG_GLOBAL_REQUEST : Nat := 80

/-- Modelled from the spec: standard code for SSH_MSG_REQUEST_FAILURE. -/
def SSH_MSG_REQUEST_FAILURE : Nat := 82

/-- Modelled from the spec: standard code for SSH_MSG_CHANNEL_OPEN. -/
def SSH_MSG_CHANNEL_OPEN : Nat := 90

/-- Modelled from the spec: standard code for SSH_MSG_CHANNEL_OPEN_CONFIRMATION. -/
def SSH_MSG_CHANNEL_OPEN_CONFIRMATION : Nat := 91

/-- Modelled from the spec: standard code for SSH_MSG_CHANNEL_WINDOW_ADJUST. -/
def SSH_MSG_CHANNEL_WINDOW_ADJUST : Nat := 93

/-- Modelled from the spec: standard code for SSH_MSG_CHANNEL_CLOSE. -/
def SSH_MSG_CHANNEL_CLOSE : Nat := 97

/-- Modelled from the spec: standard code for SSH_MSG_CHANNEL_REQUEST. -/
def SSH_MSG_CHANNEL_REQUEST : Nat := 98

/-- Modelled from the spec: standard code for SSH_MSG_CHANNEL_SUCCESS. -/
def SSH_MSG_CHANNEL_SUCCESS : Nat := 99

/-- Modelled from the spec: standard code for SSH_MSG_CHANNEL_FAILURE. -/
def SSH_MSG_CHANNEL_FAILURE : Nat := 100

/-! ### Sequence counters (src/client.rs, struct Sequence) -/

/-- The Rust constant u32::MAX, the largest value of a 32-bit counter. -/
def U32_MAX : Nat := 4294967295

/-- Embedding of struct Sequence (src/client.rs lines 16-19): the pair of
per-direction 32-bit packet counters.  The u32 fields are modelled as Nat;
the increment operations below keep them at or below U32_MAX. -/
structure Sequence where
  client_sequence_num : Nat
  server_sequence_num : Nat
deriving Repr, DecidableEq

/-- Embedding of Sequence::client_auto_increment (src/client.rs lines 23-28):
if the counter equals u32::MAX it is first reset to 0, and then, in either
case, incremented by one. -/
def Sequence.client_auto_increment (s : Sequence) : Sequence :=
  let c := if s.client_sequence_num = U32_MAX then 0 else s.client_sequence_num
  { s with client_sequence_num := c + 1 }

/-- Embedding of Sequence::server_auto_increment (src/client.rs lines 30-35),
identical to the client direction on the other counter. -/
def Sequence.server_auto_increment (s : Sequence) : Sequence :=
  let c := if s.server_sequence_num = U32_MAX then 0 else s.server_sequence_num
  { s with server_sequence_num := c + 1 }

/-- The initial counters of a fresh connection (src/client.rs lines 47-50). -/
def initialSequence : Sequence := ⟨0, 0⟩

/-- The pure step function applied to a single counter by either
auto-increment: wrap check first, increment after. -/
def wrapIncrement (x : Nat) : Nat := (if x = U32_MAX then 0 else x) + 1

theorem client_auto_increment_eq (s : Sequence) :
    s.client_auto_increment =
      { s with client_sequence_num := wrapIncrement s.client_sequence_num } := rfl

theorem server_auto_increment_eq (s : Sequence) :
    s.server_auto_increment =
      { s with server_sequence_num := wrapIncrement s.server_sequence_num } := rfl

/-- The client send counter after n packets have been sent from a fresh
connection: n iterations of client_auto_increment from the initial state. -/
def clientSeqAfter (n : Nat) : Nat :=
  (Sequence.client_auto_increment^[n] initialSequence).client_sequence_num

/-- The server receive counter after n packets have been received from a
fresh connection. -/
def serverSeqAfter (n : Nat) : Nat :=
  (Sequence.server_auto_increment^[n] initialSequence).server_sequence_num

theorem wrapIncrement_iter (n : Nat) :
    wrapIncrement^[n] 0 = if n = 0 then 0 else (n - 1) % U32_MAX + 1 := by
  induction n with
  | zero => rfl
  | succ m ih =>
    rw [Function.iterate_succ_apply', ih, wrapIncrement]
    rw [if_neg (by omega : ¬ (m + 1 = 0))]
    by_cases hm : m = 0
    · subst hm; norm_num [U32_MAX]
    · rw [if_neg hm]
      clear ih
      by_cases hM : (m - 1) % U32_MAX + 1 = U32_MAX
      · rw [if_pos hM]
        simp only [U32_MAX] at hM ⊢
        omega
      · rw [if_neg hM]
        simp only [U32_MAX] at hM ⊢
        omega

theorem clientSeqAfter_eq_iter (n : Nat) :
    clientSeqAfter n = wrapIncrement^[n] 0 := by
  unfold clientSeqAfter
  induction n with
  | zero => rfl
  | succ m ih =>
    rw [Function.iterate_succ_apply', Function.iterate_succ_apply',
      client_auto_increment_eq]
    simpa using congrArg wrapIncrement ih

theorem serverSeqAfter_eq_iter (n : Nat) :
    serverSeqAfter n = wrapIncrement^[n] 0 := by
  unfold serverSeqAfter
  induction n with
  | zero => rfl
  | succ m ih =>
    rw [Function.iterate_succ_apply', Function.iterate_succ_apply',
      server_auto_increment_eq]
    simpa using congrArg wrapIncrement ih

theorem clientSeqAfter_closed (n : Nat) :
    clientSeqAfter n = if n = 0 then 0 else (n - 1) % U32_MAX + 1 := by
  rw [clientSeqAfter_eq_iter, wrapIncrement_iter]

theorem serverSeqAfter_closed (n : Nat) :
    serverSeqAfter n = if n = 0 then 0 else (n - 1) % U32_MAX + 1 := by
  rw [serverSeqAfter_eq_iter, wrapIncrement_iter]

/-! ### The cursor buffer and packet payload extraction

The packet module is not part of the provided source; the cursor reader is
modelled from the spec (section 4.1). -/

/-- Modelled from the spec: the Data cursor buffer — an ordered byte sequence
plus a forward-only read cursor used to decode typed fields. -/
structure Data where
  bytes : List Nat
  pos : Nat
deriving Repr, DecidableEq

/-- Modelled from the spec: read one byte at the cursor and advance it;
reading past the end fails with an out-of-data error (None). -/
def Data.get_u8 (d : Data) : Option (Nat × Data) :=
  match d.bytes.get? d.pos with
  | none => none
  | some b => some (b, { d with pos := d.pos + 1 })

/-- Modelled from the spec: read a big-endian u32 at the cursor and advance
it by four; reading past the end fails with an out-of-data error (None). -/
def Data.get_u32 (d : Data) : Option (Nat × Data) :=
  match d.bytes.get? d.pos, d.bytes.get? (d.pos + 1),
        d.bytes.get? (d.pos + 2), d.bytes.get? (d.pos + 3) with
  | some b0, some b1, some b2, some b3 =>
      some (((b0 * 256 + b1) * 256 + b2) * 256 + b3, { d with pos := d.pos + 4 })
  | _, _, _, _ => none

/-- Modelled from the spec: Packet::processing_data strips the 4-byte length
field and the 1-byte padding-length field of a received frame and yields a
cursor over the payload (the payload starts at byte index 5 of the frame,
which is also where open_shell and open_exec read the message code). -/
def processing_data (buf : List Nat) : Data := ⟨buf.drop 5, 0⟩

/-! ### Channel close (src/channel.rs, Channel::close) -/

/-- Outcome of one bounded run of the close loop. -/
inductive CloseOutcome
  | ok
  | timedOut
deriving Repr, DecidableEq

/-- Embedding of the per-buffer test of Channel::close (src/channel.rs lines
159-167): the received frame is run through Packet::processing_data, a u8
message code and a u32 channel number are read, and the loop returns Ok when
the code is SSH_MSG_CHANNEL_CLOSE and the channel number is the client
channel ID.  A buffer too short to parse matches nothing. -/
def closeMatches (client_channel : Nat) (buf : List Nat) : Bool :=
  match (processing_data buf).get_u8 with
  | none => false
  | some (code, d) =>
    match d.get_u32 with
    | none => false
    | some (channel_num, _) =>
      code == SSH_MSG_CHANNEL_CLOSE && channel_num == client_channel

/-- Embedding of the polling loop of Channel::close (src/channel.rs lines
152-169), run against a finite oracle of successful stream reads (each read
yields a list of complete frames).  The source captures the clock ONCE before
the loop (let date_time = chrono Local now) and computes the deadline
startMillis + 1500 from it; the guard re-evaluates timestamp_millis on the
same captured value, so the guard compares startMillis with
startMillis + 1500.  The result None means the oracle was exhausted with the
loop still running. -/
def closeLoop (client_channel : Nat) (startMillis : Int) :
    List (List (List Nat)) → Option CloseOutcome
  | [] => none
  | reads :: rest =>
    if startMillis ≥ startMillis + 1500 then some CloseOutcome.timedOut
    else if reads.any (closeMatches client_channel) then some CloseOutcome.ok
    else closeLoop client_channel startMillis rest

/-- Decidable test: some read of the trace delivers a frame that carries
SSH_MSG_CHANNEL_CLOSE for the client channel ID. -/
def traceHasMatch (client_channel : Nat) (trace : List (List (List Nat))) : Bool :=
  trace.any (fun reads => reads.any (closeMatches client_channel))

/-! ### Claim theorems C1, C2, C6 -/

/-- Claim C1, counterexample: the claim says that after N sent packets the
send counter equals N mod 2^32, starting from 0.  It fails at N = 2^32: the
wrap check resets the counter from u32::MAX to 0 and the increment then runs,
so the counter reaches 1 and the value 0 is skipped. -/
theorem c1_counterexample :
    clientSeqAfter 4294967296 ≠ 4294967296 % 4294967296 := by
  rw [clientSeqAfter_closed]
  norm_num [U32_MAX]

/-- Claim C1, amended: for every direction the counter increments by exactly
1 per packet while below u32::MAX, but at u32::MAX the wrap check resets it
to 0 before the increment, so it wraps from u32::MAX to 1, skipping 0; hence
after N sent (resp. received) packets the counter equals 0 for N = 0 and
((N - 1) mod (2^32 - 1)) + 1 otherwise, i.e. N itself for N up to u32::MAX
and then a cycle of length 2^32 - 1 over the values 1..u32::MAX. -/
theorem c1_sequence_counter_formula (n : Nat) :
    clientSeqAfter n = (if n = 0 then 0 else (n - 1) % U32_MAX + 1) ∧
    serverSeqAfter n = (if n = 0 then 0 else (n - 1) % U32_MAX + 1) :=
  ⟨clientSeqAfter_closed n, serverSeqAfter_closed n⟩

/-- Claim C2: the close loop compares the timestamp captured before the loop
against that same timestamp plus 1500, so the timeout guard can never fire;
on any finite run in which the peer never delivers the matching close
acknowledgment, Channel::close is still looping — it neither returns a
timeout error after the 1.5-second bound nor terminates at all.  This
contradicts the claim, which promises a timeout error; the code is the slip
(it computes a deadline and has an explicit timed-out return that is
unreachable), so the claim stands and the code is wrong. -/
theorem c2_close_never_times_out (ch : Nat) (t : Int)
    (trace : List (List (List Nat)))
    (h : ∀ reads ∈ trace, reads.any (closeMatches ch) = false) :
    closeLoop ch t trace = none := by
  induction trace with
  | nil => rfl
  | cons reads rest ih =>
    have h1 : reads.any (closeMatches ch) = false := h reads (List.mem_cons_self _ _)
    have h2 : ∀ r ∈ rest, r.any (closeMatches ch) = false :=
      fun r hr => h r (List.mem_cons_of_mem _ hr)
    have hg : ¬ (t ≥ t + 1500) := by omega
    simp only [closeLoop, if_neg hg, h1, Bool.false_eq_true, if_false]
    exact ih h2

/-- Witness for c2_close_never_times_out: a concrete silent peer — three
polls each returning no frames — leaves close still looping. -/
theorem c2_close_never_times_out_witness :
    closeLoop 0 0 [[], [], []] = none :=
  c2_close_never_times_out 0 0 [[], [], []]
    (by intro reads hr; simp at hr; subst hr; rfl)

/-- Claim C6: if some poll of the close loop delivers a frame carrying
SSH_MSG_CHANNEL_CLOSE with the client channel ID, Channel::close returns
Ok.  (The timeout guard compares the captured start time with itself plus
1500 and therefore never preempts the match.) -/
theorem c6_close_returns_ok (ch : Nat) (t : Int)
    (trace : List (List (List Nat)))
    (h : traceHasMatch ch trace = true) :
    closeLoop ch t trace = some CloseOutcome.ok := by
  induction trace with
  | nil => simp [traceHasMatch] at h
  | cons reads rest ih =>
    have hg : ¬ (t ≥ t + 1500) := by omega
    by_cases hr : reads.any (closeMatches ch) = true
    · simp only [closeLoop, if_neg hg, hr, if_true]
    · have hrest : traceHasMatch ch rest = true := by
        simp only [traceHasMatch, List.any_cons, Bool.or_eq_true] at h
        rcases h with h | h
        · exact absurd h hr
        · exact h
      simp only [closeLoop, if_neg hg, hr, if_false]
      exact ih hrest

/-- Witness for c6_close_returns_ok: a concrete frame whose payload carries
message code 97 (SSH_MSG_CHANNEL_CLOSE) and channel number 0 after the
5-byte frame header makes close return Ok. -/
theorem c6_close_returns_ok_witness :
    closeLoop 0 0 [[[0, 0, 0, 0, 0, 97, 0, 0, 0, 0]]] = some CloseOutcome.ok :=
  c6_close_returns_ok 0 0 [[[0, 0, 0, 0, 0, 97, 0, 0, 0, 0]]] (by decide)

/-! ### Typed fields of an outgoing Data buffer

Outgoing messages are assembled field by field (put_u8, put_u32, put_str,
put_bytes in the source); a buffer is embedded as the list of its typed
fields, which keeps every value the source writes without re-encoding them
through the (absent) packet module. -/

/-- One typed field written into an outgoing Data buffer. -/
inductive Field
  | u8 (v : Nat)
  | u32 (v : Nat)
  | str (s : String)
  | bytes (bs : List Nat)
deriving Repr, DecidableEq

/-- Modelled from the spec: the error taxonomy (section 7) and the error
kinds named by the source (UserNullError, PasswordNullError, PasswordError,
ChannelFailureError); the error module is not under src/.  SignatureVerify
stands for the fatal authentication/integrity error of a failed host
signature check. -/
inductive SshErrorKind
  | UserNullError
  | PasswordNullError
  | PasswordError
  | ChannelFailureError
  | SignatureVerify
deriving Repr, DecidableEq

/-- Modelled from the spec: the strings module is not under src/; the string
constant used for the shell channel request. -/
def SHELL : String := "shell"

/-- Modelled from the spec: the string constant used for the pty request. -/
def PTY_REQ : String := "pty-req"

/-- Modelled from the spec: the terminal type string sent in the pty request;
its exact value is not under src/ and is immaterial to the claims. -/
def XTERM_VAR : String := "xterm"

/-- Modelled from the spec: the fixed local window maximum (a configured
constant bounding per-channel receive buffering); the constants module is
not under src/.  The theorems below depend only on the relation between the
consumed counter and half this constant, not on its value. -/
def LOCAL_WINDOW_SIZE : Nat := 2097152

/-! ### Authentication (src/session.rs) -/

/-- The configured credentials (config.user of the source). -/
structure UserConfig where
  username : String
  password : String
deriving Repr, DecidableEq

/-- A network write performed during authentication. -/
inductive AuthWire
  | userauthRequest (username password : String)
  | requestFailureReply
deriving Repr, DecidableEq

/-- Embedding of password_authentication (src/session.rs lines 189-206):
an empty username fails with UserNullError and an empty password with
PasswordNullError, both before anything is written; otherwise the
SSH_MSG_USERAUTH_REQUEST message is written.  The returned list holds the
writes performed, in order. -/
def password_authentication (cfg : UserConfig) :
    List AuthWire × Except SshErrorKind Unit :=
  if cfg.username.isEmpty then ([], Except.error SshErrorKind.UserNullError)
  else if cfg.password.isEmpty then ([], Except.error SshErrorKind.PasswordNullError)
  else ([AuthWire.userauthRequest cfg.username cfg.password], Except.ok ())

deriving instance DecidableEq for Except

/-- What one dispatched message does to the authentication loop. -/
inductive AuthStep
  | next (writes : List AuthWire)
  | done (r : Except SshErrorKind Unit)
deriving Repr, DecidableEq

/-- True when the step ends the loop. -/
def AuthStep.isDone : AuthStep → Bool
  | AuthStep.next _ => false
  | AuthStep.done _ => true

/-- Embedding of the match inside Session::authentication (src/session.rs
lines 142-163): SSH_MSG_SERVICE_ACCEPT runs password_authentication and the
question-mark operator propagates its error out of the loop;
SSH_MSG_USERAUTH_FAILURE returns a PasswordError; SSH_MSG_USERAUTH_SUCCESS
returns Ok; SSH_MSG_GLOBAL_REQUEST answers with SSH_MSG_REQUEST_FAILURE and
continues; every other code is ignored and the loop continues. -/
def authDispatch (cfg : UserConfig) (message_code : Nat) : AuthStep :=
  if message_code = SSH_MSG_SERVICE_ACCEPT then
    match password_authentication cfg with
    | (ws, Except.ok _) => AuthStep.next ws
    | (_, Except.error e) => AuthStep.done (Except.error e)
  else if message_code = SSH_MSG_USERAUTH_FAILURE then
    AuthStep.done (Except.error SshErrorKind.PasswordError)
  else if message_code = SSH_MSG_USERAUTH_SUCCESS then
    AuthStep.done (Except.ok ())
  else if message_code = SSH_MSG_GLOBAL_REQUEST then
    AuthStep.next [AuthWire.requestFailureReply]
  else
    AuthStep.next []

/-! ### Channel message dispatch and rekey (src/channel.rs, other_info) -/

/-- The protocol-engine state read and written by Channel::other_info: the
process-wide encryption flag IS_ENCRYPT and the installed key material
(abstracted by an identifier), together with the channel's server ID and —
modelled from the spec, because the key-agreement module is not under
src/ — the outcome of the pending exchange's signature verification and the
identifier of the key it would derive. -/
structure EngineState where
  isEncrypted : Bool
  encryptionKey : Option Nat
  server_channel : Nat
  verifyOk : Bool
  newKeyId : Nat
deriving Repr, DecidableEq

/-- The payload of one write performed by the channel engine. -/
inductive Payload
  | fields (fs : List Field)
  | kexAlgList
  | kexPublicKey
  | kexNewKeys
deriving Repr, DecidableEq

/-- One network write, tagged with the protection state (encryption flag and
key material) in force at the moment the stream write ran. -/
structure Sent where
  payload : Payload
  underEncryption : Bool
  underKey : Option Nat
deriving Repr, DecidableEq

/-- Embedding of Channel::other_info (src/channel.rs lines 25-83).
SSH_MSG_GLOBAL_REQUEST answers with SSH_MSG_REQUEST_FAILURE.
SSH_MSG_KEXINIT (rekey): when encryption is active the source first stores
false into IS_ENCRYPT and clears the key, and only then runs the algorithm
negotiation and sends the public key, so those writes happen under the
pass-through state (the writes of the key-agreement module are modelled
from the spec as one algorithm-negotiation message and one public-key
message).  SSH_MSG_KEX_ECDH_REPLY: the signature is verified; on failure
the error propagates with no state change and no write; on success the
NEWKEYS message is sent (still under the pre-flip state) and only then are
IS_ENCRYPT set to true and the new key installed.
SSH_MSG_CHANNEL_FAILURE is an error; SSH_MSG_CHANNEL_CLOSE is acknowledged
with a close message for the server channel; window-adjust, channel-request
and channel-success are ignored, as is every unknown code. -/
def other_info (st : EngineState) (message_code : Nat) :
    EngineState × List Sent × Except SshErrorKind Unit :=
  if message_code = SSH_MSG_GLOBAL_REQUEST then
    (st, [⟨Payload.fields [Field.u8 SSH_MSG_REQUEST_FAILURE],
           st.isEncrypted, st.encryptionKey⟩], Except.ok ())
  else if message_code = SSH_MSG_KEXINIT then
    let st1 := if st.isEncrypted then
        { st with isEncrypted := false, encryptionKey := none } else st
    (st1, [⟨Payload.kexAlgList, st1.isEncrypted, st1.encryptionKey⟩,
           ⟨Payload.kexPublicKey, st1.isEncrypted, st1.encryptionKey⟩],
     Except.ok ())
  else if message_code = SSH_MSG_KEX_ECDH_REPLY then
    if st.verifyOk then
      ({ st with isEncrypted := true, encryptionKey := some st.newKeyId },
       [⟨Payload.kexNewKeys, st.isEncrypted, st.encryptionKey⟩], Except.ok ())
    else
      (st, [], Except.error SshErrorKind.SignatureVerify)
  else if message_code = SSH_MSG_CHANNEL_WINDOW_ADJUST then (st, [], Except.ok ())
  else if message_code = SSH_MSG_CHANNEL_REQUEST then (st, [], Except.ok ())
  else if message_code = SSH_MSG_CHANNEL_SUCCESS then (st, [], Except.ok ())
  else if message_code = SSH_MSG_CHANNEL_FAILURE then
    (st, [], Except.error SshErrorKind.ChannelFailureError)
  else if message_code = SSH_MSG_CHANNEL_CLOSE then
    (st, [⟨Payload.fields [Field.u8 SSH_MSG_CHANNEL_CLOSE,
                           Field.u32 st.server_channel],
           st.isEncrypted, st.encryptionKey⟩], Except.ok ())
  else (st, [], Except.ok ())

/-! ### Window accounting (src/channel.rs, Channel::window_adjust) -/

/-- The stream's consumed-bytes counter (sender_window_size in the source). -/
structure StreamState where
  sender_window_size : Nat
deriving Repr, DecidableEq

/-- Embedding of Channel::window_adjust (src/channel.rs lines 85-97): when
the consumed counter has reached half LOCAL_WINDOW_SIZE, one
SSH_MSG_CHANNEL_WINDOW_ADJUST message advertising the reclaimed amount is
written and the counter is reset to 0; otherwise nothing is written and the
counter is unchanged. -/
def window_adjust (server_channel : Nat) (st : StreamState) :
    StreamState × List (List Field) :=
  if st.sender_window_size ≥ LOCAL_WINDOW_SIZE / 2 then
    (⟨0⟩,
     [[Field.u8 SSH_MSG_CHANNEL_WINDOW_ADJUST, Field.u32 server_channel,
       Field.u32 (LOCAL_WINDOW_SIZE - st.sender_window_size)]])
  else (st, [])

/-! ### Pty and shell requests (src/channel.rs, request_pty and get_shell) -/

/-- Embedding of Channel::request_pty (src/channel.rs lines 183-205): the
SSH_MSG_CHANNEL_REQUEST message with the pty-req type, want-reply false
(0), the terminal type, the 80x24 character and 640x480 pixel geometry,
and the terminal modes blob encoding TTY_OP_ISPEED (128) and TTY_OP_OSPEED
(129) of 115200 baud each, closed by TTY_OP_END (0). -/
def request_pty (server_channel : Nat) : List Field :=
  [Field.u8 SSH_MSG_CHANNEL_REQUEST, Field.u32 server_channel,
   Field.str PTY_REQ, Field.u8 0, Field.str XTERM_VAR,
   Field.u32 80, Field.u32 24, Field.u32 640, Field.u32 480,
   Field.bytes [128, 0, 1, 0xc2, 0, 129, 0, 1, 0xc2, 0, 0]]

/-- Embedding of Channel::get_shell (src/channel.rs lines 172-181): the
SSH_MSG_CHANNEL_REQUEST message with the shell type and want-reply true (1). -/
def get_shell (server_channel : Nat) : List Field :=
  [Field.u8 SSH_MSG_CHANNEL_REQUEST, Field.u32 server_channel,
   Field.str SHELL, Field.u8 1]

/-- Big-endian decoding of four bytes, as the wire represents a u32. -/
def beU32 (b0 b1 b2 b3 : Nat) : Nat := ((b0 * 256 + b1) * 256 + b2) * 256 + b3

/-- The two terminal speeds carried by the modes blob of a pty request: the
four bytes after the TTY_OP_ISPEED opcode (128) and the four after the
TTY_OP_OSPEED opcode (129), each decoded big-endian. -/
def ptySpeeds (fs : List Field) : Option (Nat × Nat) :=
  match fs.get? 9 with
  | some (Field.bytes (128 :: a :: b :: c :: d :: 129 :: e :: f :: g :: h :: _)) =>
      some (beU32 a b c d, beU32 e f g h)
  | _ => none

/-! ### Message-code read of open_shell and open_exec (src/channel.rs) -/

/-- Embedding of the read at the head of the open_shell loop (src/channel.rs
line 103): the source indexes buf[5] with no length check; the partiality of
that indexing is made explicit with an Option. -/
def open_shell_code (buf : List Nat) : Option Nat := buf.get? 5

/-- Embedding of the read at the head of the open_exec loop (src/channel.rs
line 128), identical to open_shell's. -/
def open_exec_code (buf : List Nat) : Option Nat := buf.get? 5

/-! ### Claim theorems C3, C4, C5, C7, C8, C9, C10 -/

/-- True when every write of the list went out encrypted under the given
key — the "sent under the previous protection state (the old keys)"
condition of claim C3. -/
def sentUnderOldKey (oldKey : Nat) (ws : List Sent) : Bool :=
  ws.all fun w => w.underEncryption && (w.underKey == some oldKey)

/-- A mid-session state: encryption active under key 7, with the pending
exchange set to verify successfully and derive key 9. -/
def rekeyStart : EngineState := ⟨true, some 7, 0, true, 9⟩

/-- Claim C3, counterexample: dispatching a fresh SSH_MSG_KEXINIT while
encryption is active under key 7 emits the re-negotiation's own messages,
but none of them goes out under the old keys — the source stores false
into IS_ENCRYPT and clears the key before sending them, so they go out in
pass-through, contradicting the claim that they are sent under the previous
protection state. -/
theorem c3_counterexample :
    (other_info rekeyStart SSH_MSG_KEXINIT).2.1 ≠ [] ∧
    sentUnderOldKey 7 (other_info rekeyStart SSH_MSG_KEXINIT).2.1 = false := by
  decide

/-- Claim C3, amended: when a fresh SSH_MSG_KEXINIT is received mid-session,
the engine first resets protection to pass-through (encryption flag off, key
material cleared), so the re-negotiation's own KEXINIT/DH messages are sent
unencrypted under no key; the encryption state is flipped to the new key
only after signature verification succeeds, and on verification failure the
state is unchanged, nothing is sent and an error is returned. -/
theorem c3_rekey_protection (st : EngineState) (he : st.isEncrypted = true) :
    ((other_info st SSH_MSG_KEXINIT).1.isEncrypted = false ∧
     (other_info st SSH_MSG_KEXINIT).1.encryptionKey = none ∧
     (other_info st SSH_MSG_KEXINIT).2.1.all
        (fun w => !w.underEncryption && (w.underKey == none)) = true ∧
     (other_info st SSH_MSG_KEXINIT).2.1.length = 2) ∧
    (st.verifyOk = true →
      (other_info st SSH_MSG_KEX_ECDH_REPLY).1.isEncrypted = true ∧
      (other_info st SSH_MSG_KEX_ECDH_REPLY).1.encryptionKey = some st.newKeyId) ∧
    (st.verifyOk = false →
      (other_info st SSH_MSG_KEX_ECDH_REPLY).1 = st ∧
      (other_info st SSH_MSG_KEX_ECDH_REPLY).2.1 = [] ∧
      (other_info st SSH_MSG_KEX_ECDH_REPLY).2.2 =
        Except.error SshErrorKind.SignatureVerify) := by
  refine ⟨?_, ?_, ?_⟩
  · simp [other_info, SSH_MSG_KEXINIT, SSH_MSG_GLOBAL_REQUEST, he]
  · intro hv
    simp [other_info, SSH_MSG_KEX_ECDH_REPLY, SSH_MSG_GLOBAL_REQUEST,
      SSH_MSG_KEXINIT, hv]
  · intro hv
    simp [other_info, SSH_MSG_KEX_ECDH_REPLY, SSH_MSG_GLOBAL_REQUEST,
      SSH_MSG_KEXINIT, hv]

/-- Witness for c3_rekey_protection at the concrete state rekeyStart. -/
theorem c3_rekey_protection_witness :
    (((other_info rekeyStart SSH_MSG_KEXINIT).1.isEncrypted = false ∧
      (other_info rekeyStart SSH_MSG_KEXINIT).1.encryptionKey = none ∧
      (other_info rekeyStart SSH_MSG_KEXINIT).2.1.all
         (fun w => !w.underEncryption && (w.underKey == none)) = true ∧
      (other_info rekeyStart SSH_MSG_KEXINIT).2.1.length = 2) ∧
     (rekeyStart.verifyOk = true →
       (other_info rekeyStart SSH_MSG_KEX_ECDH_REPLY).1.isEncrypted = true ∧
       (other_info rekeyStart SSH_MSG_KEX_ECDH_REPLY).1.encryptionKey =
         some rekeyStart.newKeyId) ∧
     (rekeyStart.verifyOk = false →
       (other_info rekeyStart SSH_MSG_KEX_ECDH_REPLY).1 = rekeyStart ∧
       (other_info rekeyStart SSH_MSG_KEX_ECDH_REPLY).2.1 = [] ∧
       (other_info rekeyStart SSH_MSG_KEX_ECDH_REPLY).2.2 =
         Except.error SshErrorKind.SignatureVerify)) :=
  c3_rekey_protection rekeyStart rfl

/-- Claim C4: window_adjust emits exactly one SSH_MSG_CHANNEL_WINDOW_ADJUST
message if and only if the consumed-bytes counter has reached half the
fixed local window maximum, and in that case resets the counter to 0; below
half the maximum nothing is sent and the counter is unchanged. -/
theorem c4_window_adjust_emission (sc : Nat) (st : StreamState) :
    ((window_adjust sc st).2.length = 1 ↔
        LOCAL_WINDOW_SIZE / 2 ≤ st.sender_window_size) ∧
    ((window_adjust sc st).2 = [] ↔
        st.sender_window_size < LOCAL_WINDOW_SIZE / 2) ∧
    (window_adjust sc st).1.sender_window_size =
      (if LOCAL_WINDOW_SIZE / 2 ≤ st.sender_window_size then 0
       else st.sender_window_size) := by
  unfold window_adjust
  split_ifs with h
  · simpa using h
  · simp only [ge_iff_le, not_le] at h
    simp [h, Nat.le_of_lt h]

/-- Claim C5: with an empty configured username, password_authentication
fails locally with the UserNull credential error and performs no network
write at all. -/
theorem c5_empty_username_fails_locally (cfg : UserConfig)
    (h : cfg.username = "") :
    password_authentication cfg =
      ([], Except.error SshErrorKind.UserNullError) := by
  obtain ⟨u, p⟩ := cfg
  cases h
  rfl

/-- Witness for c5_empty_username_fails_locally at a concrete config. -/
theorem c5_empty_username_fails_locally_witness :
    password_authentication ⟨"", "secret"⟩ =
      ([], Except.error SshErrorKind.UserNullError) :=
  c5_empty_username_fails_locally ⟨"", "secret"⟩ rfl

/-- Claim C7: the pty request carries want-reply false (0), the fixed
default geometry of 80x24 characters and 640x480 pixels, and input and
output terminal speeds both decoding to 115200 baud; the shell request
carries want-reply true (1). -/
theorem c7_pty_shell_request_params (sc : Nat) :
    (request_pty sc).get? 3 = some (Field.u8 0) ∧
    (request_pty sc).get? 5 = some (Field.u32 80) ∧
    (request_pty sc).get? 6 = some (Field.u32 24) ∧
    (request_pty sc).get? 7 = some (Field.u32 640) ∧
    (request_pty sc).get? 8 = some (Field.u32 480) ∧
    ptySpeeds (request_pty sc) = some (115200, 115200) ∧
    (get_shell sc).get? 3 = some (Field.u8 1) :=
  ⟨rfl, rfl, rfl, rfl, rfl, rfl, rfl⟩

/-- Claim C8: an SSH_MSG_GLOBAL_REQUEST is answered with exactly one
SSH_MSG_REQUEST_FAILURE both by the channel dispatch (other_info, which
leaves the engine state untouched and returns Ok) and by the
pre-authentication session loop (authDispatch, which keeps looping). -/
theorem c8_global_request_answered (st : EngineState) (cfg : UserConfig) :
    (other_info st SSH_MSG_GLOBAL_REQUEST).2.1.map Sent.payload =
        [Payload.fields [Field.u8 SSH_MSG_REQUEST_FAILURE]] ∧
    (other_info st SSH_MSG_GLOBAL_REQUEST).2.2 = Except.ok () ∧
    (other_info st SSH_MSG_GLOBAL_REQUEST).1 = st ∧
    authDispatch cfg SSH_MSG_GLOBAL_REQUEST =
        AuthStep.next [AuthWire.requestFailureReply] :=
  ⟨rfl, rfl, rfl, rfl⟩

/-- Claim C9, counterexample: with empty configured credentials, the
authentication loop also terminates on SSH_MSG_SERVICE_ACCEPT — the
question-mark on password_authentication propagates UserNullError out of
the loop — so SUCCESS and FAILURE are not the only handled messages that
end it. -/
theorem c9_counterexample :
    authDispatch ⟨"", ""⟩ SSH_MSG_SERVICE_ACCEPT =
        AuthStep.done (Except.error SshErrorKind.UserNullError) ∧
    (authDispatch ⟨"", ""⟩ SSH_MSG_SERVICE_ACCEPT).isDone = true ∧
    SSH_MSG_SERVICE_ACCEPT ≠ SSH_MSG_USERAUTH_SUCCESS ∧
    SSH_MSG_SERVICE_ACCEPT ≠ SSH_MSG_USERAUTH_FAILURE := by
  decide

/-- Claim C9, amended: when the configured username and password are both
nonempty, the authentication loop terminates exactly on
SSH_MSG_USERAUTH_SUCCESS (returning success) and SSH_MSG_USERAUTH_FAILURE
(returning the password credential error); with empty credentials,
SSH_MSG_SERVICE_ACCEPT additionally terminates the loop by propagating the
local password_authentication error. -/
theorem c9_auth_loop_terminals (cfg : UserConfig) (code : Nat)
    (hu : cfg.username.isEmpty = false) (hp : cfg.password.isEmpty = false) :
    ((authDispatch cfg code).isDone = true ↔
      code = SSH_MSG_USERAUTH_SUCCESS ∨ code = SSH_MSG_USERAUTH_FAILURE) ∧
    authDispatch cfg SSH_MSG_USERAUTH_SUCCESS =
      AuthStep.done (Except.ok ()) ∧
    authDispatch cfg SSH_MSG_USERAUTH_FAILURE =
      AuthStep.done (Except.error SshErrorKind.PasswordError) := by
  refine ⟨?_, rfl, rfl⟩
  unfold authDispatch password_authentication
  rw [hu, hp]
  simp only [Bool.false_eq_true, if_false]
  split_ifs with h1 h2 h3 h4 <;>
    simp_all [AuthStep.isDone, SSH_MSG_SERVICE_ACCEPT, SSH_MSG_USERAUTH_FAILURE,
      SSH_MSG_USERAUTH_SUCCESS, SSH_MSG_GLOBAL_REQUEST]

/-- Witness for c9_auth_loop_terminals with nonempty credentials at the
terminal success code. -/
theorem c9_auth_loop_terminals_witness :
    (((authDispatch ⟨"user", "pass"⟩ 52).isDone = true ↔
        (52 : Nat) = SSH_MSG_USERAUTH_SUCCESS ∨
        (52 : Nat) = SSH_MSG_USERAUTH_FAILURE) ∧
     authDispatch ⟨"user", "pass"⟩ SSH_MSG_USERAUTH_SUCCESS =
       AuthStep.done (Except.ok ()) ∧
     authDispatch ⟨"user", "pass"⟩ SSH_MSG_USERAUTH_FAILURE =
       AuthStep.done (Except.error SshErrorKind.PasswordError)) :=
  c9_auth_loop_terminals ⟨"user", "pass"⟩ 52 rfl rfl

/-- Claim C10: open_shell and open_exec read the message code at byte index
5 of every received buffer with no length check; the access is in bounds
exactly for buffers of length at least 6, so that bound is required for the
indexing to be total and a shorter buffer makes it partial. -/
theorem c10_message_code_index_bounds (buf : List Nat) :
    ((open_shell_code buf).isSome ↔ 6 ≤ buf.length) ∧
    ((open_exec_code buf).isSome ↔ 6 ≤ buf.length) := by
  have key : (buf.get? 5).isSome ↔ 5 < buf.length := by
    constructor
    · intro h
      by_contra hl
      rw [List.get?_eq_none.mpr (by omega)] at h
      simp at h
    · intro h
      rw [List.get?_eq_get h]
      simp
  constructor
  · rw [open_shell_code, key]
    omega
  · rw [open_exec_code, key]
    omega

end SshRs
